import Mathlib

/-!
Verification of the page-composition core of the image-to-PDF converter
(`src/components/image-to-pdf-converter.tsx`).

The component keeps an ordered list of image records, each with an id, a
source file, a preview URL and a rotation in degrees.  `rotateImage`
adjusts one record's rotation by ±90 modulo 360.  `convertToPdf` walks the
list in order, and for each image swaps the intrinsic dimensions when the
rotation is 90 or 270, computes a uniform scale that fits a symmetric
margin, centres the scaled rectangle on the page, and emits one PDF page
per image, reporting progress after each.

Numbers are embedded as exact rationals (the source operates on JS
numbers; the quantities of interest — page sizes in millimetres, margin
percentages, pixel dimensions — are all exactly representable and the
spec states its scenario values as exact decimals).
-/

/-- An image record, as built in `onDrop`: `{id, file, preview, rotation}`.
The `file` and `preview` fields are opaque strings supplied by the
browser runtime. -/
structure ImageFile where
  id : String
  file : String
  preview : String
  rotation : Int
  deriving Repr, DecidableEq

/-- A page size entry of the `pageSizes` record: display name plus width
and height in millimetres. -/
structure PageSize where
  name : String
  width : Rat
  height : Rat
  deriving Repr, DecidableEq

/-- The keys of the `pageSizes` record. -/
inductive PageKey where
  | letter | legal | tabloid | a4 | a3
  deriving Repr, DecidableEq

/-- The `pageSizes` table of the component, with the exact millimetre
dimensions of the source. -/
def pageSizes : PageKey → PageSize
  | .letter => { name := "Letter (8.5 x 11)", width := 215.9, height := 279.4 }
  | .legal => { name := "Legal (8.5 x 14)", width := 215.9, height := 355.6 }
  | .tabloid => { name := "Tabloid (11 x 17)", width := 279.4, height := 431.8 }
  | .a4 => { name := "A4 (210 x 297 mm)", width := 210, height := 297 }
  | .a3 => { name := "A3 (297 x 420 mm)", width := 297, height := 420 }

/-- The `value` fields of `marginOptions`: the margin percentages the UI
offers. -/
def marginOptions : List Rat := [0, 2, 5, 10, 15, 20]

/-- JavaScript's `%` on integers: truncated remainder (sign of the
dividend). -/
def jsMod (a b : Int) : Int := Int.tmod a b

/-- Direction argument of `rotateImage`. -/
inductive Direction where
  | clockwise | counterclockwise
  deriving Repr, DecidableEq

/-- The operation `rotateImage(id, direction)`: map over the list, and on the record
whose id matches, replace `rotation` by `(rotation + change + 360) % 360`
where `change` is `90` for clockwise and `-90` for counterclockwise. -/
def rotateImage (images : List ImageFile) (id : String) (direction : Direction) :
    List ImageFile :=
  images.map fun image =>
    if image.id = id then
      let change : Int := if direction = .clockwise then 90 else -90
      { image with rotation := jsMod (image.rotation + change + 360) 360 }
    else
      image

/-- A record created by `onDrop` for one accepted file: fresh id and
preview URL from the runtime, `rotation: 0`. -/
def mkDroppedImage (id file preview : String) : ImageFile :=
  { id := id, file := file, preview := preview, rotation := 0 }

/-- The handler `onDrop(acceptedFiles)`: append one fresh record per accepted file to
the current list.  Ids and preview URLs come from the runtime
(`Math.random`, `URL.createObjectURL`) and are passed in here. -/
def onDrop (prev : List ImageFile) (accepted : List (String × String × String)) :
    List ImageFile :=
  prev ++ accepted.map fun d => mkDroppedImage d.1 d.2.1 d.2.2

/-- The operation `removeImage(id)`: drop every record whose id equals `id`. -/
def removeImage (images : List ImageFile) (id : String) : List ImageFile :=
  images.filter fun image => image.id ≠ id

/-- Effective (post-rotation) dimensions: the swap
`if (rotation === 90 || rotation === 270) [width, height] = [height, width]`
applied to the intrinsic `img.width`, `img.height`. -/
def effectiveDims (w h : Rat) (rotation : Int) : Rat × Rat :=
  if rotation = 90 ∨ rotation = 270 then (h, w) else (w, h)

/-- The placement quantities computed per image inside `convertToPdf`:
scaled width and height, the uniform scale `ratio`, and the centring
offsets. -/
structure Placement where
  imgWidth : Rat
  imgHeight : Rat
  ratio : Rat
  x : Rat
  y : Rat
  deriving Repr, DecidableEq

/-- The placement computation of `convertToPdf` for one image: swap the
dimensions on 90/270 rotation, take `marginFactor = marginSize / 100`,
`availableWidth = pageWidth * (1 - marginFactor * 2)` (and likewise for
height), `ratio = min(availableWidth / imgWidth, availableHeight / imgHeight)`,
scale both dimensions by `ratio`, and centre:
`x = (pageWidth - imgWidth) / 2`, `y = (pageHeight - imgHeight) / 2`. -/
def computePlacement (w h : Rat) (rotation : Int) (pageWidth pageHeight marginSize : Rat) :
    Placement :=
  let dims := effectiveDims w h rotation
  let width := dims.1
  let height := dims.2
  let marginFactor := marginSize / 100
  let availableWidth := pageWidth * (1 - marginFactor * 2)
  let availableHeight := pageHeight * (1 - marginFactor * 2)
  let ratio := min (availableWidth / width) (availableHeight / height)
  let imgWidth := width * ratio
  let imgHeight := height * ratio
  { imgWidth := imgWidth
    imgHeight := imgHeight
    ratio := ratio
    x := (pageWidth - imgWidth) / 2
    y := (pageHeight - imgHeight) / 2 }

/-- An image together with its decoded intrinsic dimensions (`img.width`,
`img.height` once the preview has loaded).  The `onload` callback is
assumed to fire (the spec's await contract: decode always eventually
succeeds). -/
structure LoadedImage where
  image : ImageFile
  width : Rat
  height : Rat
  deriving Repr, DecidableEq

/-- Observable effects `convertToPdf` performs against the jsPDF document
and the progress UI:
`newDocument` is the `new jsPDF(...)` call (which creates the first page),
`addPage` is `pdf.addPage(...)`, `addImage` is `pdf.addImage(..., x, y, w, h)`
tagged with the source image's id, `setProgress` is the progress report,
`save` is `pdf.save(filename)`. -/
inductive PdfEvent where
  | newDocument (pageWidth pageHeight : Rat)
  | addPage (pageWidth pageHeight : Rat)
  | addImage (id : String) (x y w h : Rat)
  | setProgress (value : Rat)
  | save (filename : String)
  deriving Repr, DecidableEq

/-- The body of one iteration of the `for` loop of `convertToPdf`:
`addPage` for every image except the first (`if (i > 0)`), then
`addImage` at the computed placement, then the progress report
`(processedImages / totalImages) * 100` where `processedImages` has just
been incremented to `i + 1`. -/
def pageEvents (ps : PageSize) (marginSize : Rat) (total : Nat) (i : Nat)
    (img : LoadedImage) : List PdfEvent :=
  let p := computePlacement img.width img.height img.image.rotation ps.width ps.height
    marginSize
  (if 0 < i then [PdfEvent.addPage ps.width ps.height] else []) ++
    [PdfEvent.addImage img.image.id p.x p.y p.imgWidth p.imgHeight,
     PdfEvent.setProgress (((i + 1 : Nat) : Rat) / (total : Rat) * 100)]

/-- The `for (let i = 0; ...)` loop of `convertToPdf`, unrolled over the
image list with its running index. -/
def convertLoop (ps : PageSize) (marginSize : Rat) (total : Nat) :
    Nat → List LoadedImage → List PdfEvent
  | _, [] => []
  | i, img :: rest =>
      pageEvents ps marginSize total i img ++ convertLoop ps marginSize total (i + 1) rest

/-- The operation `convertToPdf`: bail out on an empty list before touching the
document (`if (images.length === 0) return`); otherwise reset progress to
0, create the document at the selected page size, run the loop, and save
as "converted-images.pdf". -/
def convertToPdf (images : List LoadedImage) (pageKey : PageKey) (marginSize : Rat) :
    List PdfEvent :=
  if images.length = 0 then []
  else
    let ps := pageSizes pageKey
    PdfEvent.setProgress 0 :: PdfEvent.newDocument ps.width ps.height ::
      (convertLoop ps marginSize images.length 0 images ++
        [PdfEvent.save "converted-images.pdf"])

/-- Number of pages of the produced document: the `new jsPDF(...)` call
creates the initial page, and each `addPage` appends one. -/
def pageCount (trace : List PdfEvent) : Nat :=
  trace.countP (fun e => match e with
    | .newDocument _ _ => true
    | .addPage _ _ => true
    | _ => false)

/-- Number of `addPage` calls in a trace. -/
def addPageCount (trace : List PdfEvent) : Nat :=
  trace.countP (fun e => match e with | .addPage _ _ => true | _ => false)

/-- Number of `newDocument` (document-creation) events in a trace. -/
def newDocumentCount (trace : List PdfEvent) : Nat :=
  trace.countP (fun e => match e with | .newDocument _ _ => true | _ => false)

/-- Number of `save` calls in a trace. -/
def saveCount (trace : List PdfEvent) : Nat :=
  trace.countP (fun e => match e with | .save _ => true | _ => false)

/-- The ids of the images placed on pages, in trace order: one entry per
`addImage` event. -/
def placedIds (trace : List PdfEvent) : List String :=
  trace.filterMap (fun e => match e with | .addImage id _ _ _ _ => some id | _ => none)

/-- The progress values reported to the UI, in trace order. -/
def progressReports (trace : List PdfEvent) : List Rat :=
  trace.filterMap (fun e => match e with | .setProgress v => some v | _ => none)

/-- A sequence of user rotation actions applied in order via
`rotateImage`. -/
def applyRotations (images : List ImageFile) (ops : List (String × Direction)) :
    List ImageFile :=
  ops.foldl (fun acc op => rotateImage acc op.1 op.2) images

/-- Both effective dimensions are positive when the intrinsic ones are. -/
theorem effectiveDims_pos (w h : Rat) (r : Int) (hw : 0 < w) (hh : 0 < h) :
    0 < (effectiveDims w h r).1 ∧ 0 < (effectiveDims w h r).2 := by
  unfold effectiveDims
  split <;> exact ⟨by assumption, by assumption⟩

/-- Claim C1: For positive intrinsic dimensions, rotation a multiple of 90,
positive page dimensions and a margin percentage from the offered set,
the computed scale is `min(PW·(1−2m)/ew, PH·(1−2m)/eh)` over the
effective (post-rotation) dimensions, and the scaled dimensions are
`ew·scale` and `eh·scale`. -/
theorem computePlacement_scale_min (w h : Rat) (r : Int) (PW PH ms : Rat)
    (hw : 0 < w) (hh : 0 < h)
    (hr : r = 0 ∨ r = 90 ∨ r = 180 ∨ r = 270)
    (hPW : 0 < PW) (hPH : 0 < PH) (hms : ms ∈ marginOptions) :
    (computePlacement w h r PW PH ms).ratio =
      min (PW * (1 - 2 * (ms / 100)) / (effectiveDims w h r).1)
        (PH * (1 - 2 * (ms / 100)) / (effectiveDims w h r).2) ∧
    (computePlacement w h r PW PH ms).imgWidth =
      (effectiveDims w h r).1 * (computePlacement w h r PW PH ms).ratio ∧
    (computePlacement w h r PW PH ms).imgHeight =
      (effectiveDims w h r).2 * (computePlacement w h r PW PH ms).ratio := by
  refine ⟨?_, rfl, rfl⟩
  show min (PW * (1 - ms / 100 * 2) / (effectiveDims w h r).1)
      (PH * (1 - ms / 100 * 2) / (effectiveDims w h r).2) = _
  congr 1 <;> · congr 1; ring

/-- Witness for C1: the Letter / 800×600 / margin 10 instance. -/
theorem computePlacement_scale_min_witness :
    (computePlacement 800 600 0 215.9 279.4 10).ratio =
      min (215.9 * (1 - 2 * ((10 : Rat) / 100)) / (effectiveDims 800 600 0).1)
        (279.4 * (1 - 2 * ((10 : Rat) / 100)) / (effectiveDims 800 600 0).2) ∧
    (computePlacement 800 600 0 215.9 279.4 10).imgWidth =
      (effectiveDims 800 600 0).1 * (computePlacement 800 600 0 215.9 279.4 10).ratio ∧
    (computePlacement 800 600 0 215.9 279.4 10).imgHeight =
      (effectiveDims 800 600 0).2 * (computePlacement 800 600 0 215.9 279.4 10).ratio :=
  computePlacement_scale_min 800 600 0 215.9 279.4 10 (by norm_num) (by norm_num)
    (Or.inl rfl) (by norm_num) (by norm_num) (by simp [marginOptions])

/-- Claim C2: At rotation 90 or 270 the effective dimensions are the
intrinsic ones swapped; at 0 or 180 they are unchanged; and the
subsequent scaling (the scale and both scaled dimensions) is computed
from these effective dimensions. -/
theorem effectiveDims_rotation (w h : Rat) (r : Int) :
    ((r = 90 ∨ r = 270) → effectiveDims w h r = (h, w)) ∧
    ((r = 0 ∨ r = 180) → effectiveDims w h r = (w, h)) ∧
    (∀ PW PH ms : Rat,
      (computePlacement w h r PW PH ms).ratio =
        min (PW * (1 - ms / 100 * 2) / (effectiveDims w h r).1)
          (PH * (1 - ms / 100 * 2) / (effectiveDims w h r).2) ∧
      (computePlacement w h r PW PH ms).imgWidth =
        (effectiveDims w h r).1 * (computePlacement w h r PW PH ms).ratio ∧
      (computePlacement w h r PW PH ms).imgHeight =
        (effectiveDims w h r).2 * (computePlacement w h r PW PH ms).ratio) := by
  refine ⟨fun hr => ?_, fun hr => ?_, fun PW PH ms => ⟨rfl, rfl, rfl⟩⟩
  · simp [effectiveDims, hr]
  · rcases hr with hr | hr <;> subst hr <;> simp [effectiveDims]

/-- Witness for C2: both branches at concrete rotations. -/
theorem effectiveDims_rotation_witness :
    effectiveDims (800 : Rat) 600 90 = (600, 800) ∧
    effectiveDims (800 : Rat) 600 0 = (800, 600) :=
  ⟨(effectiveDims_rotation 800 600 90).1 (Or.inl rfl),
   (effectiveDims_rotation 800 600 0).2.1 (Or.inl rfl)⟩

/-- Claim C3: For every input the offsets are `x = (PW − sw)/2` and
`y = (PH − sh)/2`, hence `x + sw/2 = PW/2` and `y + sh/2 = PH/2`: the
scaled image is centred on the full page. -/
theorem computePlacement_centered (w h : Rat) (r : Int) (PW PH ms : Rat) :
    (computePlacement w h r PW PH ms).x =
      (PW - (computePlacement w h r PW PH ms).imgWidth) / 2 ∧
    (computePlacement w h r PW PH ms).y =
      (PH - (computePlacement w h r PW PH ms).imgHeight) / 2 ∧
    (computePlacement w h r PW PH ms).x +
      (computePlacement w h r PW PH ms).imgWidth / 2 = PW / 2 ∧
    (computePlacement w h r PW PH ms).y +
      (computePlacement w h r PW PH ms).imgHeight / 2 = PH / 2 := by
  have hx : (computePlacement w h r PW PH ms).x =
      (PW - (computePlacement w h r PW PH ms).imgWidth) / 2 := rfl
  have hy : (computePlacement w h r PW PH ms).y =
      (PH - (computePlacement w h r PW PH ms).imgHeight) / 2 := rfl
  refine ⟨hx, hy, ?_, ?_⟩
  · rw [hx]; ring
  · rw [hy]; ring

/-- Claim C4: The computed scale never lets either scaled dimension exceed
the available area, and at least one dimension fills it exactly. -/
theorem computePlacement_tight_fit (w h : Rat) (r : Int) (PW PH ms : Rat)
    (hw : 0 < w) (hh : 0 < h) (hPW : 0 < PW) (hPH : 0 < PH)
    (hms : ms ∈ marginOptions) :
    (computePlacement w h r PW PH ms).ratio * (effectiveDims w h r).1 ≤
      PW * (1 - 2 * (ms / 100)) ∧
    (computePlacement w h r PW PH ms).ratio * (effectiveDims w h r).2 ≤
      PH * (1 - 2 * (ms / 100)) ∧
    ((computePlacement w h r PW PH ms).ratio * (effectiveDims w h r).1 =
        PW * (1 - 2 * (ms / 100)) ∨
      (computePlacement w h r PW PH ms).ratio * (effectiveDims w h r).2 =
        PH * (1 - 2 * (ms / 100))) := by
  obtain ⟨hew, heh⟩ := effectiveDims_pos w h r hw hh
  set ew := (effectiveDims w h r).1 with hewdef
  set eh := (effectiveDims w h r).2 with hehdef
  have hAW : PW * (1 - ms / 100 * 2) = PW * (1 - 2 * (ms / 100)) := by ring
  have hAH : PH * (1 - ms / 100 * 2) = PH * (1 - 2 * (ms / 100)) := by ring
  have hratio : (computePlacement w h r PW PH ms).ratio =
      min (PW * (1 - ms / 100 * 2) / ew) (PH * (1 - ms / 100 * 2) / eh) := rfl
  refine ⟨?_, ?_, ?_⟩
  · rw [hratio, ← hAW]
    calc min (PW * (1 - ms / 100 * 2) / ew) (PH * (1 - ms / 100 * 2) / eh) * ew ≤
        PW * (1 - ms / 100 * 2) / ew * ew :=
          mul_le_mul_of_nonneg_right (min_le_left _ _) (le_of_lt hew)
      _ = PW * (1 - ms / 100 * 2) := div_mul_cancel₀ _ (ne_of_gt hew)
  · rw [hratio, ← hAH]
    calc min (PW * (1 - ms / 100 * 2) / ew) (PH * (1 - ms / 100 * 2) / eh) * eh ≤
        PH * (1 - ms / 100 * 2) / eh * eh :=
          mul_le_mul_of_nonneg_right (min_le_right _ _) (le_of_lt heh)
      _ = PH * (1 - ms / 100 * 2) := div_mul_cancel₀ _ (ne_of_gt heh)
  · rcases min_choice (PW * (1 - ms / 100 * 2) / ew) (PH * (1 - ms / 100 * 2) / eh) with
      hc | hc
    · left
      rw [hratio, hc, div_mul_cancel₀ _ (ne_of_gt hew), hAW]
    · right
      rw [hratio, hc, div_mul_cancel₀ _ (ne_of_gt heh), hAH]

/-- Witness for C4: the Letter / 800×600 / margin 10 instance. -/
theorem computePlacement_tight_fit_witness :
    (computePlacement 800 600 0 215.9 279.4 10).ratio * (effectiveDims 800 600 0).1 ≤
      215.9 * (1 - 2 * ((10 : Rat) / 100)) ∧
    (computePlacement 800 600 0 215.9 279.4 10).ratio * (effectiveDims 800 600 0).2 ≤
      279.4 * (1 - 2 * ((10 : Rat) / 100)) ∧
    ((computePlacement 800 600 0 215.9 279.4 10).ratio * (effectiveDims 800 600 0).1 =
        215.9 * (1 - 2 * ((10 : Rat) / 100)) ∨
      (computePlacement 800 600 0 215.9 279.4 10).ratio * (effectiveDims 800 600 0).2 =
        279.4 * (1 - 2 * ((10 : Rat) / 100))) :=
  computePlacement_tight_fit 800 600 0 215.9 279.4 10 (by norm_num) (by norm_num)
    (by norm_num) (by norm_num) (by simp [marginOptions])

/-- One loop iteration places exactly the current image. -/
theorem placedIds_pageEvents (ps : PageSize) (ms : Rat) (total i : Nat)
    (img : LoadedImage) :
    placedIds (pageEvents ps ms total i img) = [img.image.id] := by
  unfold pageEvents placedIds
  split <;> rfl

/-- One loop iteration reports exactly the progress value
`(i + 1) / total * 100`. -/
theorem progressReports_pageEvents (ps : PageSize) (ms : Rat) (total i : Nat)
    (img : LoadedImage) :
    progressReports (pageEvents ps ms total i img) =
      [((i + 1 : Nat) : Rat) / (total : Rat) * 100] := by
  unfold pageEvents progressReports
  split <;> rfl

/-- One loop iteration calls `addPage` exactly when `i > 0`. -/
theorem addPageCount_pageEvents (ps : PageSize) (ms : Rat) (total i : Nat)
    (img : LoadedImage) :
    addPageCount (pageEvents ps ms total i img) = if 0 < i then 1 else 0 := by
  unfold pageEvents addPageCount
  split <;> rfl

/-- The loop never creates a document. -/
theorem newDocumentCount_pageEvents (ps : PageSize) (ms : Rat) (total i : Nat)
    (img : LoadedImage) :
    newDocumentCount (pageEvents ps ms total i img) = 0 := by
  unfold pageEvents newDocumentCount
  split <;> rfl

/-- The loop emits the images' ids in input order. -/
theorem placedIds_convertLoop (ps : PageSize) (ms : Rat) (total : Nat)
    (l : List LoadedImage) :
    ∀ i : Nat, placedIds (convertLoop ps ms total i l) =
      l.map fun img => img.image.id := by
  induction l with
  | nil => intro i; rfl
  | cons img rest ih =>
      intro i
      simp only [convertLoop, placedIds, List.filterMap_append, List.map_cons]
      rw [show (pageEvents ps ms total i img).filterMap _ = placedIds
            (pageEvents ps ms total i img) from rfl,
        placedIds_pageEvents,
        show (convertLoop ps ms total (i + 1) rest).filterMap _ = placedIds
            (convertLoop ps ms total (i + 1) rest) from rfl,
        ih (i + 1)]
      rfl

/-- Starting from a positive index, the loop adds one page per image. -/
theorem addPageCount_convertLoop_pos (ps : PageSize) (ms : Rat) (total : Nat)
    (l : List LoadedImage) :
    ∀ i : Nat, 0 < i → addPageCount (convertLoop ps ms total i l) = l.length := by
  induction l with
  | nil => intro i _; rfl
  | cons img rest ih =>
      intro i hi
      simp only [convertLoop, addPageCount, List.countP_append, List.length_cons]
      rw [show (pageEvents ps ms total i img).countP _ = addPageCount
            (pageEvents ps ms total i img) from rfl,
        addPageCount_pageEvents, if_pos hi,
        show (convertLoop ps ms total (i + 1) rest).countP _ = addPageCount
            (convertLoop ps ms total (i + 1) rest) from rfl,
        ih (i + 1) (Nat.succ_pos i)]
      omega

/-- The loop never creates a document, from any index. -/
theorem newDocumentCount_convertLoop (ps : PageSize) (ms : Rat) (total : Nat)
    (l : List LoadedImage) :
    ∀ i : Nat, newDocumentCount (convertLoop ps ms total i l) = 0 := by
  induction l with
  | nil => intro i; rfl
  | cons img rest ih =>
      intro i
      simp only [convertLoop, newDocumentCount, List.countP_append]
      rw [show (pageEvents ps ms total i img).countP _ = newDocumentCount
            (pageEvents ps ms total i img) from rfl,
        newDocumentCount_pageEvents,
        show (convertLoop ps ms total (i + 1) rest).countP _ = newDocumentCount
            (convertLoop ps ms total (i + 1) rest) from rfl,
        ih (i + 1)]

/-- The loop's progress reports, from any starting index. -/
theorem progressReports_convertLoop (ps : PageSize) (ms : Rat) (total : Nat)
    (l : List LoadedImage) :
    ∀ i : Nat, progressReports (convertLoop ps ms total i l) =
      (List.range l.length).map
        fun j => ((i + j + 1 : Nat) : Rat) / (total : Rat) * 100 := by
  induction l with
  | nil => intro i; rfl
  | cons img rest ih =>
      intro i
      simp only [convertLoop, progressReports, List.filterMap_append, List.length_cons]
      rw [show (pageEvents ps ms total i img).filterMap _ = progressReports
            (pageEvents ps ms total i img) from rfl,
        progressReports_pageEvents,
        show (convertLoop ps ms total (i + 1) rest).filterMap _ = progressReports
            (convertLoop ps ms total (i + 1) rest) from rfl,
        ih (i + 1), List.range_succ_eq_map, List.map_cons, List.map_map]
      refine List.cons_eq_cons.mpr ⟨by norm_num, List.map_congr_left fun j _ => ?_⟩
      have harith : i + 1 + j + 1 = i + (j + 1) + 1 := by omega
      simp [Function.comp, harith]

/-- A trace's page total splits into the created document's initial page
and the appended pages. -/
theorem pageCount_eq_newDocument_add_addPage (t : List PdfEvent) :
    pageCount t = newDocumentCount t + addPageCount t := by
  induction t with
  | nil => rfl
  | cons e t ih =>
      cases e <;>
        simp [pageCount, newDocumentCount, addPageCount, List.countP_cons] at ih ⊢ <;>
        omega

/-- The full trace of `convertToPdf` on a non-empty list. -/
theorem convertToPdf_cons (img : LoadedImage) (rest : List LoadedImage) (key : PageKey)
    (ms : Rat) :
    convertToPdf (img :: rest) key ms =
      PdfEvent.setProgress 0 ::
        PdfEvent.newDocument (pageSizes key).width (pageSizes key).height ::
        (convertLoop (pageSizes key) ms (rest.length + 1) 0 (img :: rest) ++
          [PdfEvent.save "converted-images.pdf"]) := by
  simp [convertToPdf]

/-- The operation `convertToPdf` creates exactly one document on a non-empty list. -/
theorem newDocumentCount_convertToPdf (images : List LoadedImage) (key : PageKey)
    (ms : Rat) (hne : images ≠ []) :
    newDocumentCount (convertToPdf images key ms) = 1 := by
  rcases images with _ | ⟨img, rest⟩
  · cases hne rfl
  rw [convertToPdf_cons]
  simp only [newDocumentCount, List.countP_cons, List.countP_append]
  rw [show (convertLoop (pageSizes key) ms (rest.length + 1) 0 (img :: rest)).countP _ =
        newDocumentCount (convertLoop (pageSizes key) ms (rest.length + 1) 0
          (img :: rest)) from rfl,
    newDocumentCount_convertLoop]
  rfl

/-- The operation `convertToPdf` appends one page per image after the first. -/
theorem addPageCount_convertToPdf (images : List LoadedImage) (key : PageKey)
    (ms : Rat) (hne : images ≠ []) :
    addPageCount (convertToPdf images key ms) = images.length - 1 := by
  rcases images with _ | ⟨img, rest⟩
  · cases hne rfl
  rw [convertToPdf_cons]
  simp only [addPageCount, List.countP_cons, List.countP_append, convertLoop,
    List.length_cons]
  rw [show (pageEvents (pageSizes key) ms (rest.length + 1) 0 img).countP _ =
        addPageCount (pageEvents (pageSizes key) ms (rest.length + 1) 0 img) from rfl,
    addPageCount_pageEvents,
    show (convertLoop (pageSizes key) ms (rest.length + 1) 1 rest).countP _ =
        addPageCount (convertLoop (pageSizes key) ms (rest.length + 1) 1 rest) from rfl,
    addPageCount_convertLoop_pos (pageSizes key) ms (rest.length + 1) rest 1 Nat.one_pos]
  simp

/-- The operation `convertToPdf` places the images' ids in input order. -/
theorem placedIds_convertToPdf (images : List LoadedImage) (key : PageKey) (ms : Rat)
    (hne : images ≠ []) :
    placedIds (convertToPdf images key ms) = images.map fun img => img.image.id := by
  rcases images with _ | ⟨img, rest⟩
  · cases hne rfl
  rw [convertToPdf_cons]
  simp only [placedIds, List.filterMap_cons, List.filterMap_append]
  rw [show (convertLoop (pageSizes key) ms (rest.length + 1) 0 (img :: rest)).filterMap _ =
        placedIds (convertLoop (pageSizes key) ms (rest.length + 1) 0 (img :: rest)) from
        rfl,
    placedIds_convertLoop]
  simp

/-- Claim C5: On a non-empty list of n images the produced document has
exactly n pages (the initial page of document creation plus one appended
page per image after the first), and the images are placed on the pages
in input order. -/
theorem convertToPdf_pages_in_order (images : List LoadedImage) (key : PageKey)
    (ms : Rat) (hne : images ≠ []) :
    pageCount (convertToPdf images key ms) = images.length ∧
    placedIds (convertToPdf images key ms) = images.map (fun img => img.image.id) ∧
    addPageCount (convertToPdf images key ms) = images.length - 1 ∧
    newDocumentCount (convertToPdf images key ms) = 1 := by
  have hnd := newDocumentCount_convertToPdf images key ms hne
  have hap := addPageCount_convertToPdf images key ms hne
  have hlen : 1 ≤ images.length := by
    rcases images with _ | ⟨img, rest⟩
    · cases hne rfl
    · exact Nat.succ_le_succ (Nat.zero_le _)
  refine ⟨?_, placedIds_convertToPdf images key ms hne, hap, hnd⟩
  rw [pageCount_eq_newDocument_add_addPage, hnd, hap]
  omega

/-- Witness for C5: a concrete two-image run. -/
theorem convertToPdf_pages_in_order_witness :
    pageCount (convertToPdf
        [⟨⟨"a", "f", "p", 0⟩, 800, 600⟩, ⟨⟨"b", "g", "q", 90⟩, 10, 20⟩] .letter 10) = 2 ∧
    placedIds (convertToPdf
        [⟨⟨"a", "f", "p", 0⟩, 800, 600⟩, ⟨⟨"b", "g", "q", 90⟩, 10, 20⟩] .letter 10) =
      ["a", "b"] ∧
    addPageCount (convertToPdf
        [⟨⟨"a", "f", "p", 0⟩, 800, 600⟩, ⟨⟨"b", "g", "q", 90⟩, 10, 20⟩] .letter 10) = 1 ∧
    newDocumentCount (convertToPdf
        [⟨⟨"a", "f", "p", 0⟩, 800, 600⟩, ⟨⟨"b", "g", "q", 90⟩, 10, 20⟩] .letter 10) = 1 :=
  convertToPdf_pages_in_order
    [⟨⟨"a", "f", "p", 0⟩, 800, 600⟩, ⟨⟨"b", "g", "q", 90⟩, 10, 20⟩] .letter 10
    (by simp)

/-- Claim C6: On the empty image list `convertToPdf` is a no-op: the trace
is empty — zero pages, no document creation, and no save call. -/
theorem convertToPdf_empty_noop (key : PageKey) (ms : Rat) :
    convertToPdf [] key ms = [] ∧
    pageCount (convertToPdf [] key ms) = 0 ∧
    newDocumentCount (convertToPdf [] key ms) = 0 ∧
    saveCount (convertToPdf [] key ms) = 0 :=
  ⟨rfl, rfl, rfl, rfl⟩

/-- The progress reports of a full run: the initial reset to 0 followed
by `k / n * 100` for `k = 1 .. n`. -/
theorem progressReports_convertToPdf (images : List LoadedImage) (key : PageKey)
    (ms : Rat) (hne : images ≠ []) :
    progressReports (convertToPdf images key ms) =
      (List.range (images.length + 1)).map
        fun k => ((k : Nat) : Rat) / ((images.length : Nat) : Rat) * 100 := by
  rcases images with _ | ⟨img, rest⟩
  · cases hne rfl
  rw [convertToPdf_cons]
  simp only [progressReports, List.filterMap_cons, List.filterMap_append,
    List.length_cons]
  rw [show (convertLoop (pageSizes key) ms (rest.length + 1) 0 (img :: rest)).filterMap
        _ = progressReports (convertLoop (pageSizes key) ms (rest.length + 1) 0
          (img :: rest)) from rfl,
    progressReports_convertLoop, List.length_cons, List.filterMap_nil,
    List.append_nil]
  conv_rhs => rw [List.range_succ_eq_map]
  rw [List.map_cons, List.map_map]
  refine List.cons_eq_cons.mpr ⟨by norm_num, ?_⟩
  refine List.map_congr_left fun j _ => ?_
  simp [Function.comp]

/-- Claim C9: In a run over a non-empty image list the reported progress
values are exactly `k / n * 100` for `k = 0 .. n` in order, the sequence
of reports is strictly increasing, every report lies in `[0, 100]`, and
the last report is exactly 100. -/
theorem convertToPdf_progress (images : List LoadedImage) (key : PageKey) (ms : Rat)
    (hne : images ≠ []) :
    progressReports (convertToPdf images key ms) =
      (List.range (images.length + 1)).map
        (fun k => ((k : Nat) : Rat) / ((images.length : Nat) : Rat) * 100) ∧
    List.Chain' (fun a b => a < b) (progressReports (convertToPdf images key ms)) ∧
    (∀ v ∈ progressReports (convertToPdf images key ms), 0 ≤ v ∧ v ≤ 100) ∧
    (progressReports (convertToPdf images key ms)).getLast? = some 100 := by
  have hn : 0 < images.length := List.length_pos.mpr hne
  have hnQ : (0 : Rat) < ((images.length : Nat) : Rat) := by exact_mod_cast hn
  have hrep := progressReports_convertToPdf images key ms hne
  refine ⟨hrep, ?_, ?_, ?_⟩
  · rw [hrep, List.chain'_map]
    refine (List.chain'_range_succ _ images.length).mpr fun m _ => ?_
    have hfrac : (0 : Rat) < 100 / ((images.length : Nat) : Rat) := by positivity
    calc ((m : Nat) : Rat) / ((images.length : Nat) : Rat) * 100 =
        ((m : Nat) : Rat) * (100 / ((images.length : Nat) : Rat)) := by ring
      _ < ((m + 1 : Nat) : Rat) * (100 / ((images.length : Nat) : Rat)) := by
          refine mul_lt_mul_of_pos_right ?_ hfrac
          exact_mod_cast Nat.lt_succ_self m
      _ = ((m + 1 : Nat) : Rat) / ((images.length : Nat) : Rat) * 100 := by ring
  · rw [hrep]
    intro v hv
    obtain ⟨k, hk, rfl⟩ := List.mem_map.mp hv
    have hkle : k ≤ images.length := by
      have := List.mem_range.mp hk
      omega
    constructor
    · positivity
    · have hdiv : ((k : Nat) : Rat) / ((images.length : Nat) : Rat) ≤ 1 :=
        (div_le_one hnQ).mpr (by exact_mod_cast hkle)
      calc ((k : Nat) : Rat) / ((images.length : Nat) : Rat) * 100 ≤ 1 * 100 :=
          mul_le_mul_of_nonneg_right hdiv (by norm_num)
        _ = 100 := by norm_num
  · rw [hrep, List.range_succ, List.map_append, List.map_cons, List.map_nil,
      List.getLast?_concat]
    have : ((images.length : Nat) : Rat) / ((images.length : Nat) : Rat) * 100 = 100 := by
      rw [div_self (ne_of_gt hnQ)]; norm_num
    rw [this]

/-- Witness for C9: a concrete two-image run. -/
theorem convertToPdf_progress_witness :
    progressReports (convertToPdf
        [⟨⟨"a", "f", "p", 0⟩, 800, 600⟩, ⟨⟨"b", "g", "q", 90⟩, 10, 20⟩] .letter 10) =
      (List.range ((2 : Nat) + 1)).map (fun k => ((k : Nat) : Rat) / ((2 : Nat) : Rat) * 100) ∧
    List.Chain' (fun a b => a < b) (progressReports (convertToPdf
        [⟨⟨"a", "f", "p", 0⟩, 800, 600⟩, ⟨⟨"b", "g", "q", 90⟩, 10, 20⟩] .letter 10)) ∧
    (∀ v ∈ progressReports (convertToPdf
        [⟨⟨"a", "f", "p", 0⟩, 800, 600⟩, ⟨⟨"b", "g", "q", 90⟩, 10, 20⟩] .letter 10),
      0 ≤ v ∧ v ≤ 100) ∧
    (progressReports (convertToPdf
        [⟨⟨"a", "f", "p", 0⟩, 800, 600⟩, ⟨⟨"b", "g", "q", 90⟩, 10, 20⟩] .letter
        10)).getLast? = some 100 :=
  convertToPdf_progress
    [⟨⟨"a", "f", "p", 0⟩, 800, 600⟩, ⟨⟨"b", "g", "q", 90⟩, 10, 20⟩] .letter 10 (by simp)

/-- The rotation update of `rotateImage` keeps a multiple-of-90 rotation
in `{0, 90, 180, 270}`. -/
theorem jsMod_rotation_step (rot change : Int)
    (hrot : rot = 0 ∨ rot = 90 ∨ rot = 180 ∨ rot = 270)
    (hch : change = 90 ∨ change = -90) :
    jsMod (rot + change + 360) 360 = 0 ∨ jsMod (rot + change + 360) 360 = 90 ∨
      jsMod (rot + change + 360) 360 = 180 ∨ jsMod (rot + change + 360) 360 = 270 := by
  rcases hrot with rfl | rfl | rfl | rfl <;> rcases hch with rfl | rfl <;> decide

/-- Every rotation in the list is one of `{0, 90, 180, 270}`. -/
def RotationsOk (images : List ImageFile) : Prop :=
  ∀ img ∈ images, img.rotation = 0 ∨ img.rotation = 90 ∨ img.rotation = 180 ∨
    img.rotation = 270

/-- The operation `rotateImage` preserves the multiple-of-90 invariant. -/
theorem rotationsOk_rotateImage (images : List ImageFile) (id : String) (dir : Direction)
    (hok : RotationsOk images) : RotationsOk (rotateImage images id dir) := by
  intro img hmem
  obtain ⟨a, ha, rfl⟩ := List.mem_map.mp hmem
  by_cases h : a.id = id
  · simp only [h, if_pos rfl]
    exact jsMod_rotation_step a.rotation _ (hok a ha)
      (by cases dir <;> simp)
  · simp only [if_neg h]
    exact hok a ha

/-- Any sequence of rotate operations preserves the invariant. -/
theorem rotationsOk_applyRotations (ops : List (String × Direction)) :
    ∀ images : List ImageFile, RotationsOk images →
      RotationsOk (applyRotations images ops) := by
  induction ops with
  | nil => exact fun images hok => hok
  | cons op rest ih =>
      intro images hok
      exact ih (rotateImage images op.1 op.2)
        (rotationsOk_rotateImage images op.1 op.2 hok)

/-- Freshly dropped records satisfy the invariant (rotation 0). -/
theorem rotationsOk_onDrop (prev : List ImageFile)
    (accepted : List (String × String × String)) (hok : RotationsOk prev) :
    RotationsOk (onDrop prev accepted) := by
  intro img hmem
  rcases List.mem_append.mp hmem with h | h
  · exact hok img h
  · obtain ⟨d, _, rfl⟩ := List.mem_map.mp h
    exact Or.inl rfl

/-- Claim C7: Every record is created with rotation 0, each `rotateImage`
step keeps every rotation in `{0, 90, 180, 270}`, and therefore the
invariant holds after any sequence of rotate operations on any dropped
set. -/
theorem rotation_always_multiple_of_90 (accepted : List (String × String × String))
    (ops : List (String × Direction)) :
    (∀ img ∈ onDrop [] accepted, img.rotation = 0) ∧
    (∀ images : List ImageFile, RotationsOk images → ∀ id dir,
      RotationsOk (rotateImage images id dir)) ∧
    RotationsOk (applyRotations (onDrop [] accepted) ops) := by
  refine ⟨?_, fun images hok id dir => rotationsOk_rotateImage images id dir hok, ?_⟩
  · intro img hmem
    rcases List.mem_append.mp hmem with h | h
    · cases h
    · obtain ⟨d, _, rfl⟩ := List.mem_map.mp h
      rfl
  · exact rotationsOk_applyRotations ops (onDrop [] accepted)
      (rotationsOk_onDrop [] accepted (fun img h => by cases h))

/-- Witness for C7: one drop of two files followed by three rotations. -/
theorem rotation_always_multiple_of_90_witness :
    (∀ img ∈ onDrop [] [("a", "f", "p"), ("b", "g", "q")], img.rotation = 0) ∧
    (∀ images : List ImageFile, RotationsOk images → ∀ id dir,
      RotationsOk (rotateImage images id dir)) ∧
    RotationsOk (applyRotations (onDrop [] [("a", "f", "p"), ("b", "g", "q")])
      [("a", .counterclockwise), ("a", .counterclockwise), ("b", .clockwise)]) :=
  rotation_always_multiple_of_90 [("a", "f", "p"), ("b", "g", "q")]
    [("a", .counterclockwise), ("a", .counterclockwise), ("b", .clockwise)]

/-- Claim C10: `rotateImage` changes at most the `rotation` field of the
records whose id matches: the length is unchanged, each record keeps its
position, id, file and preview, non-matching records are untouched, and
when no record matches the list is unchanged. -/
theorem rotateImage_frame (images : List ImageFile) (id : String) (dir : Direction) :
    (rotateImage images id dir).length = images.length ∧
    List.Forall₂ (fun img img2 =>
        img2.id = img.id ∧ img2.file = img.file ∧ img2.preview = img.preview ∧
        (img.id ≠ id → img2 = img))
      images (rotateImage images id dir) ∧
    ((∀ img ∈ images, img.id ≠ id) → rotateImage images id dir = images) := by
  refine ⟨by simp [rotateImage], ?_, ?_⟩
  · induction images with
    | nil => exact List.Forall₂.nil
    | cons a l ih =>
        refine List.Forall₂.cons ?_ ih
        by_cases h : a.id = id
        · refine ⟨?_, ?_, ?_, fun hne => absurd h hne⟩ <;> simp [rotateImage, h]
        · simp [rotateImage, h]
  · intro hall
    have : rotateImage images id dir = images.map (fun a => a) := by
      refine List.map_congr_left fun a ha => ?_
      simp [hall a ha]
    rw [this]
    simp

/-- Witness for C10: a concrete two-record list with one matching id. -/
theorem rotateImage_frame_witness :
    (rotateImage [⟨"a", "f", "p", 90⟩, ⟨"b", "g", "q", 180⟩] "a" .clockwise).length =
      ([⟨"a", "f", "p", 90⟩, ⟨"b", "g", "q", 180⟩] : List ImageFile).length ∧
    List.Forall₂ (fun img img2 =>
        img2.id = img.id ∧ img2.file = img.file ∧ img2.preview = img.preview ∧
        (img.id ≠ "a" → img2 = img))
      [⟨"a", "f", "p", 90⟩, ⟨"b", "g", "q", 180⟩]
      (rotateImage [⟨"a", "f", "p", 90⟩, ⟨"b", "g", "q", 180⟩] "a" .clockwise) ∧
    ((∀ img ∈ ([⟨"a", "f", "p", 90⟩, ⟨"b", "g", "q", 180⟩] : List ImageFile),
        img.id ≠ "a") →
      rotateImage [⟨"a", "f", "p", 90⟩, ⟨"b", "g", "q", 180⟩] "a" .clockwise =
        [⟨"a", "f", "p", 90⟩, ⟨"b", "g", "q", 180⟩]) :=
  rotateImage_frame [⟨"a", "f", "p", 90⟩, ⟨"b", "g", "q", 180⟩] "a" .clockwise

/-- Claim C8: The Letter / 800×600 / rotation 0 / margin 10% scenario, in
exact rational arithmetic: available area 172.72 × 223.52, effective
dimensions 800 × 600, scale 0.2159, scaled dimensions 172.72 × 129.54,
offsets (21.59, 74.93). -/
theorem letter_scenario_800x600 :
    (pageSizes .letter).width * (1 - 10 / 100 * 2) = 172.72 ∧
    (pageSizes .letter).height * (1 - 10 / 100 * 2) = 223.52 ∧
    effectiveDims 800 600 0 = (800, 600) ∧
    (computePlacement 800 600 0 (pageSizes .letter).width (pageSizes .letter).height
        10).ratio = 0.2159 ∧
    (computePlacement 800 600 0 (pageSizes .letter).width (pageSizes .letter).height
        10).imgWidth = 172.72 ∧
    (computePlacement 800 600 0 (pageSizes .letter).width (pageSizes .letter).height
        10).imgHeight = 129.54 ∧
    (computePlacement 800 600 0 (pageSizes .letter).width (pageSizes .letter).height
        10).x = 21.59 ∧
    (computePlacement 800 600 0 (pageSizes .letter).width (pageSizes .letter).height
        10).y = 74.93 := by
  refine ⟨by norm_num [pageSizes], by norm_num [pageSizes], rfl, ?_, ?_, ?_, ?_, ?_⟩ <;>
    norm_num [computePlacement, effectiveDims, pageSizes, min_def]
